import Mathlib

/-!
Verification of the inventory-management server (Express + Google Sheets
backend).  The development shallowly embeds the canonical controller file
`src/controllers/inventory.js` (the feature-complete version with image
links, blank-row scanning and the three-band transaction log): spreadsheet
cells are strings, JavaScript numbers are modelled by `JVal` (NaN, the two
infinities, and exact finite values as rationals), and each HTTP handler
becomes a pure function from its request body, the fetched sheet contents
and the wall clock to an `Outcome` that records the HTTP status, the error
message and the list of range writes the handler issues.
-/

/-- Model of a JavaScript number as produced by `parseFloat` and used in the
quantity arithmetic of the controllers: NaN, positive/negative infinity, or a
finite value represented exactly as a rational. -/
inductive JVal
  | nan
  | posInf
  | negInf
  | fin (q : ℚ)
deriving DecidableEq

/-- Test for NaN, as JavaScript `isNaN` on a number. -/
def JVal.isNaNb : JVal → Bool
  | .nan => true
  | _ => false

/-- JavaScript comparison `v <= 0` (false on NaN). -/
def JVal.leZero : JVal → Bool
  | .nan => false
  | .posInf => false
  | .negInf => true
  | .fin q => q ≤ 0

/-- JavaScript comparison `a < b` (false whenever either side is NaN). -/
def JVal.lt : JVal → JVal → Bool
  | .nan, _ => false
  | _, .nan => false
  | .negInf, .negInf => false
  | .negInf, _ => true
  | .posInf, _ => false
  | .fin _, .negInf => false
  | .fin _, .posInf => true
  | .fin a, .fin b => a < b

/-- JavaScript subtraction on numbers. -/
def JVal.sub : JVal → JVal → JVal
  | .nan, _ => .nan
  | _, .nan => .nan
  | .posInf, .posInf => .nan
  | .posInf, _ => .posInf
  | .negInf, .negInf => .nan
  | .negInf, _ => .negInf
  | .fin _, .posInf => .negInf
  | .fin _, .negInf => .posInf
  | .fin a, .fin b => .fin (a - b)

/-- JavaScript addition on numbers. -/
def JVal.add : JVal → JVal → JVal
  | .nan, _ => .nan
  | _, .nan => .nan
  | .posInf, .negInf => .nan
  | .posInf, _ => .posInf
  | .negInf, .posInf => .nan
  | .negInf, _ => .negInf
  | .fin _, .posInf => .posInf
  | .fin _, .negInf => .negInf
  | .fin a, .fin b => .fin (a + b)

/-- JavaScript `v || 0` on a number: NaN (and zero itself) collapse to 0,
every other value passes through.  Used for `parseFloat(row[colQty]) || 0`. -/
def JVal.orZero : JVal → JVal
  | .nan => .fin 0
  | v => v

/-- Accumulate decimal digit characters into a natural number. -/
def digitsToNat : List Char → Nat → Nat
  | [], acc => acc
  | c :: cs, acc => digitsToNat cs (acc * 10 + (c.toNat - 48))

/-- Parse the optional exponent suffix of a decimal literal (`e`/`E`, optional
sign, digits); contributes exponent 0 when absent or when no digits follow,
matching the longest-valid-prefix rule of `parseFloat`. -/
def parseExpPart : List Char → Int
  | [] => 0
  | c :: rest =>
    if c = 'e' ∨ c = 'E' then
      match rest with
      | '+' :: r =>
        let d := r.takeWhile Char.isDigit
        if d = [] then 0 else (digitsToNat d 0 : Int)
      | '-' :: r =>
        let d := r.takeWhile Char.isDigit
        if d = [] then 0 else -(digitsToNat d 0 : Int)
      | r =>
        let d := r.takeWhile Char.isDigit
        if d = [] then 0 else (digitsToNat d 0 : Int)
    else 0

/-- Split an optional fractional part: on `'.' :: r` take the leading digits
of `r`, otherwise nothing.  Returns the fraction digits and the remainder. -/
def splitFrac : List Char → List Char × List Char
  | '.' :: r => (r.takeWhile Char.isDigit, r.dropWhile Char.isDigit)
  | l => ([], l)

/-- Body of `parseFloat` after the optional sign: either the `Infinity`
keyword or a decimal significand with optional fraction and exponent; NaN when
no digits are present at all. -/
def parseFloatCore (cs : List Char) (neg : Bool) : JVal :=
  if cs.take 8 = "Infinity".data then (if neg then .negInf else .posInf)
  else
    let intD := cs.takeWhile Char.isDigit
    let rest1 := cs.dropWhile Char.isDigit
    let fr := splitFrac rest1
    if intD = [] ∧ fr.1 = [] then .nan
    else
      let digits : Nat := digitsToNat (intD ++ fr.1) 0
      let shift : Int := parseExpPart fr.2 - fr.1.length
      let numer : Int := (if neg then -(digits : Int) else (digits : Int)) * (10 ^ shift.toNat : Nat)
      let denom : Nat := 10 ^ (-shift).toNat
      .fin (mkRat numer denom)

/-- Model of JavaScript `parseFloat` on a string: skip leading whitespace,
read an optional sign, then the longest valid decimal (or `Infinity`) prefix;
NaN when no valid prefix exists.  Finite values are kept exact as rationals. -/
def parseFloat (s : String) : JVal :=
  match s.data.dropWhile Char.isWhitespace with
  | '+' :: r => parseFloatCore r false
  | '-' :: r => parseFloatCore r true
  | r => parseFloatCore r false

/-- JavaScript `parseFloat` applied to a possibly-absent cell:
`parseFloat(undefined)` coerces `undefined` to the string `"undefined"` and
yields NaN. -/
def parseCellFloat : Option String → JVal
  | none => .nan
  | some s => parseFloat s

/-- Model of JavaScript `String.prototype.trim`: strip whitespace from both
ends. -/
def jsTrim (s : String) : String :=
  String.mk (((s.data.dropWhile Char.isWhitespace).reverse.dropWhile Char.isWhitespace).reverse)

/-- Model of JavaScript `String.prototype.toLowerCase` (ASCII letters, which
is all the controllers compare). -/
def jsToLower (s : String) : String :=
  String.mk (s.data.map Char.toLower)

/-- Decide whether `needle` occurs as a contiguous substring of `hay`, as
JavaScript `hay.includes(needle)`. -/
def listIncludes (hay needle : List Char) : Bool :=
  needle.isPrefixOf hay ||
    match hay with
    | [] => false
    | _ :: t => listIncludes t needle

/-- String form of `listIncludes`. -/
def strIncludes (hay needle : String) : Bool :=
  listIncludes hay.data needle.data

/-- Model of JavaScript `String.prototype.padStart(n, c)`. -/
def jsPadStart (s : String) (n : Nat) (c : Char) : String :=
  String.mk (List.replicate (n - s.data.length) c ++ s.data)

/-- Model of JavaScript `Array.prototype.indexOf` on a string array, returning
the zero-based index of the first exact match (`none` for the JS result -1).
The accumulator carries the index of the list head. -/
def jsIndexOfAux (x : String) : List String → Nat → Option Nat
  | [], _ => none
  | a :: rest, n => if a = x then some n else jsIndexOfAux x rest (n + 1)

/-- Entry point of `jsIndexOfAux` at index 0. -/
def jsIndexOf (x : String) (l : List String) : Option Nat :=
  jsIndexOfAux x l 0

/-- Fuel-driven unfolding of the `while (colIndex >= 0)` loop of
`getColumnLetter` in `src/controllers/inventory.js` (lines 14-21): prepend the
character for `colIndex % 26`, then continue with
`Math.floor(colIndex / 26) - 1`. -/
def getColumnLetterGo : Nat → Int → String
  | 0, _ => ""
  | fuel + 1, c =>
    if c ≥ 0 then
      getColumnLetterGo fuel (Int.fdiv c 26 - 1) ++ String.singleton (Char.ofNat ((Int.emod c 26).toNat + 65))
    else ""

/-- Column-index-to-letter conversion of the source (`getColumnLetter`).  The
fuel `c.toNat + 2` strictly dominates the number of loop iterations (one per
bijective base-26 digit plus the final negative check), so the loop always
runs to completion. -/
def getColumnLetter (c : Int) : String :=
  getColumnLetterGo (c.toNat + 2) c

/-- Timestamp construction shared verbatim by `issueInventory` (lines
237-251), `receiveInventory` (lines 390-404) and `addNewItemWithoutCode`
(lines 575-589): `${year}-${month}-${day}, ${hours}:${minutes}:${seconds}
${ampm}` with zero-padded month/day/minutes/seconds and a 12-hour clock whose
hour 0 is rendered as 12.  `month` is the already 1-based month
(`getMonth() + 1`). -/
def formatTimestamp (year month day hours minutes seconds : Nat) : String :=
  let monthS := jsPadStart (toString month) 2 '0'
  let dayS := jsPadStart (toString day) 2 '0'
  let minutesS := jsPadStart (toString minutes) 2 '0'
  let secondsS := jsPadStart (toString seconds) 2 '0'
  let ampm := if hours ≥ 12 then "PM" else "AM"
  let h0 := hours % 12
  let h1 := if h0 = 0 then 12 else h0
  toString year ++ "-" ++ monthS ++ "-" ++ dayS ++ ", " ++ toString h1 ++ ":" ++
    minutesS ++ ":" ++ secondsS ++ " " ++ ampm

/-- Wall-clock reading handed to a handler, mirroring the `Date` getters the
source calls (`getMonth` is 0-based, exactly as in JavaScript). -/
structure Clock where
  getFullYear : Nat
  getMonth : Nat
  getDate : Nat
  getHours : Nat
  getMinutes : Nat
  getSeconds : Nat
deriving DecidableEq

/-- Timestamp a handler derives from `new Date()`. -/
def Clock.timestamp (c : Clock) : String :=
  formatTimestamp c.getFullYear (c.getMonth + 1) c.getDate c.getHours c.getMinutes c.getSeconds

/-- Value written into a spreadsheet cell: a string, a number, or JavaScript
`undefined` (a missing object key). -/
inductive Cell
  | str (s : String)
  | num (v : JVal)
  | undef
deriving DecidableEq

/-- One remote write issued by a handler: the A1-notation range exactly as
the source builds it, and the rectangle of values sent. -/
structure SheetWrite where
  range : String
  values : List (List Cell)
deriving DecidableEq

/-- Result of one handler run: HTTP status, the `error` field of the JSON
response (if any), and every spreadsheet write performed, in order. -/
structure Outcome where
  status : Nat
  error : Option String
  writes : List SheetWrite
deriving DecidableEq

/-- Blankness test of `findFirstBlankRowAtoJ` (line 147): every cell among
the first ten positions of the row is absent (`slice` stops at the row's
end, `every` is vacuously true there) or whitespace-only. -/
def isBlankRowAtoJ (row : List String) : Bool :=
  (row.take 10).all fun cell => jsTrim cell = ""

/-- Scanning loop of `findFirstBlankRowAtoJ` (lines 144-151), carried out on
the fetched rows with the 0-based index `i`; `total` is the number of fetched
rows, used by the append fallback (line 154). -/
def findAtoJAux (total : Nat) : List (List String) → Nat → Nat
  | [], _ => total + 1
  | row :: rest, i => if isBlankRowAtoJ row then i + 1 else findAtoJAux total rest (i + 1)

/-- Model of `findFirstBlankRowAtoJ` (lines 135-155): the fetched value of
range `Form Responses!A:J` is `response.data.values || []`; return the
1-indexed first blank row, else one past the fetched data. -/
def findFirstBlankRowAtoJ (values : Option (List (List String))) : Nat :=
  let rows := values.getD []
  findAtoJAux rows.length rows 0

/-- Blankness test of `findFirstBlankRowTtoAA` (lines 506-508): the row is
padded with empty strings up to the eight columns T..AA, then every cell must
be absent or whitespace-only. -/
def isBlankRowTtoAA (row : List String) : Bool :=
  let cells := if row.length ≥ 8 then row.take 8 else row ++ List.replicate (8 - row.length) ""
  cells.all fun cell => jsTrim cell = ""

/-- Scanning loop of `findFirstBlankRowTtoAA` (lines 503-514); positions are
offset by 2 because the fetched range starts at physical row 2. -/
def findTtoAAAux (total : Nat) : List (List String) → Nat → Nat
  | [], _ => total + 2
  | row :: rest, i => if isBlankRowTtoAA row then i + 2 else findTtoAAAux total rest (i + 1)

/-- Model of `findFirstBlankRowTtoAA` (lines 490-524) over the fetched value
of range `Form Responses!T2:AA`. -/
def findFirstBlankRowTtoAA (values : Option (List (List String))) : Nat :=
  let rows := values.getD []
  findTtoAAAux rows.length rows 0

/-- Loop of `receiveInventory` lines 432-438: track the last 1-indexed row of
the fetched `Form Responses!K3:S` band that contains a cell with
non-whitespace content; `lastRow` starts at 2 (the header row of the band). -/
def receiveLastRowAux : List (List String) → Nat → Nat → Nat
  | [], _, lastRow => lastRow
  | row :: rest, i, lastRow =>
    receiveLastRowAux rest (i + 1) (if row.any (fun cell => jsTrim cell ≠ "") then i + 3 else lastRow)

/-- Row at which `receiveInventory` writes its transaction record (line 439):
one past the last row of `Form Responses!K3:S` holding data. -/
def receiveNextRow (values : Option (List (List String))) : Nat :=
  receiveLastRowAux (values.getD []) 0 2 + 1

/-- Linear first-match scan of the inventory data rows for the requested
`(itemCode, location)` pair (issue lines 210-220, receive lines 366-376);
returns the 0-based data-row index and the row itself. -/
def findTarget (itemCode location : String) (colItemCode colLocation : Nat) :
    List (List String) → Nat → Option (Nat × List String)
  | [], _ => none
  | row :: rest, i =>
    if row[colItemCode]? = some itemCode ∧ row[colLocation]? = some location then some (i, row)
    else findTarget itemCode location colItemCode colLocation rest (i + 1)

/-- Request body of `POST /inventory/issue`; quantities arrive as strings and
`notes` may be absent. -/
structure IssueRequest where
  itemCode : String
  issuanceQty : String
  issuedBy : String
  activity : String
  notes : Option String
  location : String

/-- Request body of `POST /inventory/receive`. -/
structure ReceiveRequest where
  itemCode : String
  receiptQty : String
  receivedBy : String
  notes : Option String
  location : String

/-- Model of `issueInventory` (lines 157-311).  Arguments: the request body,
the fetched `Inventory!A:J` values (`none` when the API returns no `values`
field), the fetched `Form Responses!A:J` values consumed by the blank-row
finder, and the wall clock. -/
def issueInventory (req : IssueRequest) (inv : Option (List (List String)))
    (formAJ : Option (List (List String))) (clock : Clock) : Outcome :=
  if req.itemCode = "" ∨ req.issuanceQty = "" ∨ req.issuedBy = "" ∨ req.activity = "" ∨
      req.location = "" then
    ⟨400, some "Missing required fields", []⟩
  else
    match inv with
    | none => ⟨404, some "No inventory data found", []⟩
    | some rows =>
      if rows.length < 2 then ⟨404, some "No inventory data found", []⟩
      else
        let headers := rows.headD []
        let dataRows := rows.drop 1
        match jsIndexOf "Location" headers, jsIndexOf "Item Code" headers,
            jsIndexOf "Description" headers, jsIndexOf "Qty" headers,
            jsIndexOf "Returnable Item" headers, jsIndexOf "Image Link" headers with
        | some colLocation, some colItemCode, some colDescription, some colQty,
            some colReturnable, some colImageLink =>
          match findTarget req.itemCode req.location colItemCode colLocation dataRows 0 with
          | none => ⟨404, some "Item not found in inventory for the specified location", []⟩
          | some (i, row) =>
            let currentQty := (parseCellFloat row[colQty]?).orZero
            let description := (row[colDescription]?).getD ""
            let returnableItem := (row[colReturnable]?).getD ""
            let imageLink := (row[colImageLink]?).getD ""
            let targetRowIndex := i + 2
            let requestQty := parseFloat req.issuanceQty
            if requestQty.isNaNb ∨ requestQty.leZero then
              ⟨400, some "Invalid issuance quantity", []⟩
            else if JVal.lt currentQty requestQty then
              ⟨400, some "Not enough quantity in inventory to fulfill issuance", []⟩
            else
              let newQty := currentQty.sub requestQty
              let timestamp := clock.timestamp
              let formValues := [[Cell.str timestamp, Cell.str req.itemCode, Cell.num requestQty,
                Cell.str req.location, Cell.str description, Cell.str returnableItem,
                Cell.str req.issuedBy, Cell.str req.activity, Cell.str (req.notes.getD ""),
                Cell.str imageLink]]
              let blankRow := findFirstBlankRowAtoJ formAJ
              let updateRange := "Form Responses!A" ++ toString blankRow ++ ":J" ++ toString blankRow
              let inventoryUpdateRange :=
                "Inventory!" ++ getColumnLetter (colQty : Int) ++ toString targetRowIndex
              ⟨200, none,
                [⟨updateRange, formValues⟩, ⟨inventoryUpdateRange, [[Cell.num newQty]]⟩]⟩
        | _, _, _, _, _, _ => ⟨500, some "Inventory sheet headers missing required columns", []⟩

/-- Model of `receiveInventory` (lines 313-488).  Arguments: the request
body, the fetched `Inventory!A:J` values, the fetched `Form Responses!K3:S`
values consumed by the last-data-row scan, and the wall clock. -/
def receiveInventory (req : ReceiveRequest) (inv : Option (List (List String)))
    (receiptKS : Option (List (List String))) (clock : Clock) : Outcome :=
  if req.itemCode = "" ∨ req.receiptQty = "" ∨ req.receivedBy = "" ∨ req.location = "" then
    ⟨400, some "Missing required fields", []⟩
  else
    match inv with
    | none => ⟨404, some "No inventory data found", []⟩
    | some rows =>
      if rows.length < 2 then ⟨404, some "No inventory data found", []⟩
      else
        let headers := rows.headD []
        let dataRows := rows.drop 1
        match jsIndexOf "Location" headers, jsIndexOf "Item Code" headers,
            jsIndexOf "Description" headers, jsIndexOf "Qty" headers,
            jsIndexOf "Returnable Item" headers, jsIndexOf "Image Link" headers with
        | some colLocation, some colItemCode, some colDescription, some colQty,
            some colReturnable, some colImageLink =>
          match findTarget req.itemCode req.location colItemCode colLocation dataRows 0 with
          | none => ⟨404, some "Item not found in inventory for the specified location", []⟩
          | some (i, row) =>
            let currentQty := (parseCellFloat row[colQty]?).orZero
            let description := (row[colDescription]?).getD ""
            let returnableItem := (row[colReturnable]?).getD ""
            let imageLink := (row[colImageLink]?).getD ""
            let targetRowIndex := i + 1
            let requestQty := parseFloat req.receiptQty
            if requestQty.isNaNb ∨ requestQty.leZero then
              ⟨400, some "Invalid receipt quantity", []⟩
            else
              let newQty := currentQty.add requestQty
              let timestamp := clock.timestamp
              let formValues := [[Cell.str timestamp, Cell.str req.itemCode, Cell.num requestQty,
                Cell.str req.location, Cell.str description, Cell.str returnableItem,
                Cell.str req.receivedBy, Cell.str (req.notes.getD ""), Cell.str imageLink]]
              let nextRow := receiveNextRow receiptKS
              let updateRange := "Form Responses!K" ++ toString nextRow ++ ":S" ++ toString nextRow
              let inventoryUpdateRange :=
                "Inventory!" ++ getColumnLetter (colQty : Int) ++ toString (targetRowIndex + 1)
              ⟨200, none,
                [⟨updateRange, formValues⟩, ⟨inventoryUpdateRange, [[Cell.num newQty]]⟩]⟩
        | _, _, _, _, _, _ => ⟨500, some "Inventory sheet headers missing required columns", []⟩

/-- Model of `addInventoryWithImage` (lines 23-92).  `hasFile` is the
presence of `req.file`, `folderConfigured` the presence of the Drive folder
id, `imageLink` the link returned by the (assumed successful) Drive upload,
`entry` the result of `JSON.parse(req.body.entry)` (`none` models a parse
exception, which falls into the catch-all handler of line 88), and
`currentDate` the ISO date prefix.  Missing object keys become `undefined`
cells in the appended row. -/
def addInventoryWithImage (hasFile : Bool) (folderConfigured : Bool) (imageLink : String)
    (entry : Option (List (String × String))) (currentDate : String) : Outcome :=
  if ¬hasFile then ⟨400, some "No image file uploaded", []⟩
  else if ¬folderConfigured then ⟨500, some "Drive folder ID is not configured", []⟩
  else
    match entry with
    | none => ⟨500, some "Failed to add inventory entry and upload image", []⟩
    | some e =>
      let field := fun k => match e.lookup k with
        | some v => Cell.str v
        | none => Cell.undef
      let values := [[field "Location", field "Item Code", field "Description", field "UOM",
        field "Qty", field "Condition", field "Returnable Item", field "Category",
        Cell.str currentDate, Cell.str imageLink]]
      ⟨201, none, [⟨"Inventory!A:J", values⟩]⟩

/-- Search response: status, error message and the projected result records
(each an ordered list of header/value pairs, as the JS object is built by
iterating the header row). -/
structure SearchOutcome where
  status : Nat
  error : Option String
  results : List (List (String × String))
deriving DecidableEq

/-- Model of `searchInventory` (lines 94-133) over the fetched
`Inventory!A:J` values. -/
def searchInventory (keyword : String) (values : Option (List (List String))) : SearchOutcome :=
  if keyword = "" then ⟨400, some "Please provide a keyword to search", []⟩
  else
    match values with
    | none => ⟨404, some "No inventory data found", []⟩
    | some rows =>
      if rows.length = 0 then ⟨404, some "No inventory data found", []⟩
      else
        let headers := rows.headD []
        let dataRows := rows.drop 1
        let filtered := dataRows.filter fun row =>
          row.any fun field => field ≠ "" && strIncludes (jsToLower field) (jsToLower keyword)
        let formattedResults := filtered.map fun entry =>
          headers.enum.map fun p => (p.2, (entry[p.1]?).getD "")
        ⟨200, none, formattedResults⟩

/-- Specification notion of a blank row (spec glossary and section 4.2): every
cell among the first `width` positions is absent or whitespace-only. -/
def specIsBlankRow (width : Nat) (row : List String) : Bool :=
  (row.take width).all fun cell => jsTrim cell = ""

/-- Scan of the specification's `BlankRowFinder.findInsertionRow`: walk the
band rows in order (`n` is the current 0-based position), return
`position + headerRowOffset` at the first blank row, else the row immediately
following the last fetched row. -/
def specFindInsertionRowAux (offset width : Nat) : List (List String) → Nat → Nat
  | [], n => n + offset
  | row :: rest, n =>
    if specIsBlankRow width row then n + offset else specFindInsertionRowAux offset width rest (n + 1)

/-- Specification `findInsertionRow(bandRows, headerRowOffset, bandWidth)`
(spec section 4.2), defined from the spec's words. -/
def specFindInsertionRow (bandRows : List (List String)) (headerRowOffset bandWidth : Nat) : Nat :=
  specFindInsertionRowAux headerRowOffset bandWidth bandRows 0

lemma isBlankRowAtoJ_eq_spec (row : List String) : isBlankRowAtoJ row = specIsBlankRow 10 row := rfl

lemma isBlankRowTtoAA_eq_spec (row : List String) : isBlankRowTtoAA row = specIsBlankRow 8 row := by
  unfold isBlankRowTtoAA specIsBlankRow
  by_cases h : row.length ≥ 8
  · simp [h]
  · rw [if_neg h, List.take_of_length_le (by omega), List.all_append]
    have hrep : (List.replicate (8 - row.length) "").all (fun cell => jsTrim cell = "") = true := by
      rw [List.all_eq_true]
      intro x hx
      rw [List.eq_of_mem_replicate hx]
      decide
    rw [hrep, Bool.and_true]

lemma findAtoJAux_eq_spec (rows : List (List String)) :
    ∀ i, findAtoJAux (i + rows.length) rows i = specFindInsertionRowAux 1 10 rows i := by
  induction rows with
  | nil => intro i; simp [findAtoJAux, specFindInsertionRowAux]
  | cons r rest ih =>
    intro i
    unfold findAtoJAux specFindInsertionRowAux
    rw [isBlankRowAtoJ_eq_spec]
    by_cases h : specIsBlankRow 10 r
    · simp [h]
    · simp only [h, if_false, Bool.false_eq_true]
      rw [show i + (r :: rest).length = (i + 1) + rest.length by simp; omega]
      exact ih (i + 1)

/-- For the issuance band the source finder coincides with the
specification's `findInsertionRow` at header offset 1 and width 10. -/
lemma findFirstBlankRowAtoJ_eq_spec (rows : List (List String)) :
    findFirstBlankRowAtoJ (some rows) = specFindInsertionRow rows 1 10 := by
  unfold findFirstBlankRowAtoJ specFindInsertionRow
  simpa using findAtoJAux_eq_spec rows 0

lemma findTtoAAAux_eq_spec (rows : List (List String)) :
    ∀ i, findTtoAAAux (i + rows.length) rows i = specFindInsertionRowAux 2 8 rows i := by
  induction rows with
  | nil => intro i; simp [findTtoAAAux, specFindInsertionRowAux]
  | cons r rest ih =>
    intro i
    unfold findTtoAAAux specFindInsertionRowAux
    rw [isBlankRowTtoAA_eq_spec]
    by_cases h : specIsBlankRow 8 r
    · simp [h]
    · simp only [h, if_false, Bool.false_eq_true]
      rw [show i + (r :: rest).length = (i + 1) + rest.length by simp; omega]
      exact ih (i + 1)

/-- For the no-code-addition band the source finder coincides with the
specification's `findInsertionRow` at header offset 2 and width 8. -/
lemma findFirstBlankRowTtoAA_eq_spec (rows : List (List String)) :
    findFirstBlankRowTtoAA (some rows) = specFindInsertionRow rows 2 8 := by
  unfold findFirstBlankRowTtoAA specFindInsertionRow
  simpa using findTtoAAAux_eq_spec rows 0

lemma specFindInsertionRowAux_first_blank (offset width : Nat) :
    ∀ (rows : List (List String)) (k n : Nat), k < rows.length →
      specIsBlankRow width (rows.getD k []) = true →
      (∀ j, j < k → specIsBlankRow width (rows.getD j []) = false) →
      specFindInsertionRowAux offset width rows n = n + k + offset := by
  intro rows
  induction rows with
  | nil => intro k n hk; simp at hk
  | cons r rest ih =>
    intro k n hk hblank hmin
    unfold specFindInsertionRowAux
    match k with
    | 0 =>
      simp only [List.getD] at hblank
      simp at hblank
      simp [hblank]
    | k' + 1 =>
      have h0 : specIsBlankRow width r = false := by
        have := hmin 0 (by omega)
        simpa using this
      rw [h0]
      simp only [Bool.false_eq_true, if_false]
      have := ih k' (n + 1) (by simpa using hk) (by simpa using hblank)
        (fun j hj => by simpa using hmin (j + 1) (by omega))
      rw [this]
      omega

lemma specFindInsertionRowAux_no_blank (offset width : Nat) :
    ∀ (rows : List (List String)) (n : Nat),
      (∀ j, j < rows.length → specIsBlankRow width (rows.getD j []) = false) →
      specFindInsertionRowAux offset width rows n = n + rows.length + offset := by
  intro rows
  induction rows with
  | nil => intro n _; simp [specFindInsertionRowAux]
  | cons r rest ih =>
    intro n hmin
    unfold specFindInsertionRowAux
    have h0 : specIsBlankRow width r = false := by simpa using hmin 0 (by simp)
    rw [h0]
    simp only [Bool.false_eq_true, if_false]
    rw [ih (n + 1) (fun j hj => by simpa using hmin (j + 1) (by simp; omega))]
    simp
    omega

section HandlerLemmas

variable (req : IssueRequest) (rows : List (List String))
  (formAJ : Option (List (List String))) (clock : Clock)

/-- Successful-path equation for `issueInventory`: with all validation
passing, the located row at data index `i`, a parsed positive quantity `q`
and a current quantity `cq` at least `q`, the handler returns 200 and issues
exactly the two writes of the source: one transaction row at the blank row of
the issuance band, then the new quantity into the located quantity cell. -/
lemma issueInventory_success (cL cI cD cQ cR cIm i : Nat) (row : List String) (q cq : ℚ)
    (h1 : req.itemCode ≠ "") (h2 : req.issuanceQty ≠ "") (h3 : req.issuedBy ≠ "")
    (h4 : req.activity ≠ "") (h5 : req.location ≠ "")
    (hlen : 2 ≤ rows.length)
    (hcL : jsIndexOf "Location" (rows.headD []) = some cL)
    (hcI : jsIndexOf "Item Code" (rows.headD []) = some cI)
    (hcD : jsIndexOf "Description" (rows.headD []) = some cD)
    (hcQ : jsIndexOf "Qty" (rows.headD []) = some cQ)
    (hcR : jsIndexOf "Returnable Item" (rows.headD []) = some cR)
    (hcIm : jsIndexOf "Image Link" (rows.headD []) = some cIm)
    (htgt : findTarget req.itemCode req.location cI cL (rows.drop 1) 0 = some (i, row))
    (hq : parseFloat req.issuanceQty = .fin q) (hqpos : 0 < q)
    (hcur : (parseCellFloat row[cQ]?).orZero = .fin cq)
    (hle : q ≤ cq) :
    issueInventory req (some rows) formAJ clock =
      ⟨200, none,
        [⟨"Form Responses!A" ++ toString (findFirstBlankRowAtoJ formAJ) ++ ":J" ++
            toString (findFirstBlankRowAtoJ formAJ),
          [[Cell.str clock.timestamp, Cell.str req.itemCode, Cell.num (.fin q),
            Cell.str req.location, Cell.str ((row[cD]?).getD ""), Cell.str ((row[cR]?).getD ""),
            Cell.str req.issuedBy, Cell.str req.activity, Cell.str (req.notes.getD ""),
            Cell.str ((row[cIm]?).getD "")]]⟩,
         ⟨"Inventory!" ++ getColumnLetter (cQ : Int) ++ toString (i + 2),
          [[Cell.num (.fin (cq - q))]]⟩]⟩ := by
  unfold issueInventory
  rw [if_neg (by push_neg; exact ⟨h1, h2, h3, h4, h5⟩)]
  have hlen2 : ¬ rows.length < 2 := by omega
  simp only [List.headD_eq_head?_getD] at hcL hcI hcD hcQ hcR hcIm
  simp only [List.drop_one] at htgt
  simp [hlen2, hcL, hcI, hcD, hcQ, hcR, hcIm, htgt, hq, hcur, JVal.isNaNb, JVal.leZero,
    JVal.lt, JVal.sub, hqpos.not_le, hle.not_lt]

/-- Insufficient-stock path of `issueInventory` (line 231): a parsed positive
quantity strictly above the current quantity is rejected with status 400 and
no write at all. -/
lemma issueInventory_insufficient (cL cI cD cQ cR cIm i : Nat) (row : List String) (q : ℚ)
    (h1 : req.itemCode ≠ "") (h2 : req.issuanceQty ≠ "") (h3 : req.issuedBy ≠ "")
    (h4 : req.activity ≠ "") (h5 : req.location ≠ "")
    (hlen : 2 ≤ rows.length)
    (hcL : jsIndexOf "Location" (rows.headD []) = some cL)
    (hcI : jsIndexOf "Item Code" (rows.headD []) = some cI)
    (hcD : jsIndexOf "Description" (rows.headD []) = some cD)
    (hcQ : jsIndexOf "Qty" (rows.headD []) = some cQ)
    (hcR : jsIndexOf "Returnable Item" (rows.headD []) = some cR)
    (hcIm : jsIndexOf "Image Link" (rows.headD []) = some cIm)
    (htgt : findTarget req.itemCode req.location cI cL (rows.drop 1) 0 = some (i, row))
    (hq : parseFloat req.issuanceQty = .fin q) (hqpos : 0 < q)
    (hlt : JVal.lt ((parseCellFloat row[cQ]?).orZero) (.fin q) = true) :
    issueInventory req (some rows) formAJ clock =
      ⟨400, some "Not enough quantity in inventory to fulfill issuance", []⟩ := by
  unfold issueInventory
  rw [if_neg (by push_neg; exact ⟨h1, h2, h3, h4, h5⟩)]
  have hlen2 : ¬ rows.length < 2 := by omega
  simp only [List.headD_eq_head?_getD] at hcL hcI hcD hcQ hcR hcIm
  simp only [List.drop_one] at htgt
  simp [hlen2, hcL, hcI, hcD, hcQ, hcR, hcIm, htgt, hq, hlt, JVal.isNaNb, JVal.leZero,
    hqpos.not_le]

/-- Invalid-quantity path of `issueInventory` (lines 226-229): with the
target row located, a parsed quantity that is NaN or not strictly positive is
rejected with status 400 and no write. -/
lemma issueInventory_invalid (cL cI cD cQ cR cIm i : Nat) (row : List String)
    (h1 : req.itemCode ≠ "") (h2 : req.issuanceQty ≠ "") (h3 : req.issuedBy ≠ "")
    (h4 : req.activity ≠ "") (h5 : req.location ≠ "")
    (hlen : 2 ≤ rows.length)
    (hcL : jsIndexOf "Location" (rows.headD []) = some cL)
    (hcI : jsIndexOf "Item Code" (rows.headD []) = some cI)
    (hcD : jsIndexOf "Description" (rows.headD []) = some cD)
    (hcQ : jsIndexOf "Qty" (rows.headD []) = some cQ)
    (hcR : jsIndexOf "Returnable Item" (rows.headD []) = some cR)
    (hcIm : jsIndexOf "Image Link" (rows.headD []) = some cIm)
    (htgt : findTarget req.itemCode req.location cI cL (rows.drop 1) 0 = some (i, row))
    (hv : (parseFloat req.issuanceQty).isNaNb = true ∨ (parseFloat req.issuanceQty).leZero = true) :
    issueInventory req (some rows) formAJ clock =
      ⟨400, some "Invalid issuance quantity", []⟩ := by
  unfold issueInventory
  rw [if_neg (by push_neg; exact ⟨h1, h2, h3, h4, h5⟩)]
  have hlen2 : ¬ rows.length < 2 := by omega
  simp only [List.headD_eq_head?_getD] at hcL hcI hcD hcQ hcR hcIm
  simp only [List.drop_one] at htgt
  simp [hlen2, hcL, hcI, hcD, hcQ, hcR, hcIm, htgt]
  intro ha hb
  rcases hv with h | h <;> simp_all

/-- Converse of `issueInventory_invalid`: when the parsed quantity is neither
NaN nor nonpositive, the handler's answer is never the invalid-quantity
rejection. -/
lemma issueInventory_not_invalid (cL cI cD cQ cR cIm i : Nat) (row : List String)
    (h1 : req.itemCode ≠ "") (h2 : req.issuanceQty ≠ "") (h3 : req.issuedBy ≠ "")
    (h4 : req.activity ≠ "") (h5 : req.location ≠ "")
    (hlen : 2 ≤ rows.length)
    (hcL : jsIndexOf "Location" (rows.headD []) = some cL)
    (hcI : jsIndexOf "Item Code" (rows.headD []) = some cI)
    (hcD : jsIndexOf "Description" (rows.headD []) = some cD)
    (hcQ : jsIndexOf "Qty" (rows.headD []) = some cQ)
    (hcR : jsIndexOf "Returnable Item" (rows.headD []) = some cR)
    (hcIm : jsIndexOf "Image Link" (rows.headD []) = some cIm)
    (htgt : findTarget req.itemCode req.location cI cL (rows.drop 1) 0 = some (i, row))
    (hv : ¬ ((parseFloat req.issuanceQty).isNaNb = true ∨ (parseFloat req.issuanceQty).leZero = true)) :
    issueInventory req (some rows) formAJ clock ≠
      ⟨400, some "Invalid issuance quantity", []⟩ := by
  unfold issueInventory
  rw [if_neg (by push_neg; exact ⟨h1, h2, h3, h4, h5⟩)]
  have hlen2 : ¬ rows.length < 2 := by omega
  simp only [List.headD_eq_head?_getD] at hcL hcI hcD hcQ hcR hcIm
  simp only [List.drop_one] at htgt
  simp [hlen2, hcL, hcI, hcD, hcQ, hcR, hcIm, htgt, hv]
  split <;> simp

end HandlerLemmas

section ReceiveLemmas

variable (req : ReceiveRequest) (rows : List (List String))
  (receiptKS : Option (List (List String))) (clock : Clock)

/-- Successful-path equation for `receiveInventory`: with all validation
passing, the located row at data index `i` and a parsed positive quantity
`q`, the handler returns 200 and issues exactly the two writes of the source:
one transaction row after the last data row of the receipt band, then the
increased quantity into the located quantity cell. -/
lemma receiveInventory_success (cL cI cD cQ cR cIm i : Nat) (row : List String) (q : ℚ)
    (cv : JVal)
    (h1 : req.itemCode ≠ "") (h2 : req.receiptQty ≠ "") (h3 : req.receivedBy ≠ "")
    (h5 : req.location ≠ "")
    (hlen : 2 ≤ rows.length)
    (hcL : jsIndexOf "Location" (rows.headD []) = some cL)
    (hcI : jsIndexOf "Item Code" (rows.headD []) = some cI)
    (hcD : jsIndexOf "Description" (rows.headD []) = some cD)
    (hcQ : jsIndexOf "Qty" (rows.headD []) = some cQ)
    (hcR : jsIndexOf "Returnable Item" (rows.headD []) = some cR)
    (hcIm : jsIndexOf "Image Link" (rows.headD []) = some cIm)
    (htgt : findTarget req.itemCode req.location cI cL (rows.drop 1) 0 = some (i, row))
    (hq : parseFloat req.receiptQty = .fin q) (hqpos : 0 < q)
    (hcur : (parseCellFloat row[cQ]?).orZero = cv) :
    receiveInventory req (some rows) receiptKS clock =
      ⟨200, none,
        [⟨"Form Responses!K" ++ toString (receiveNextRow receiptKS) ++ ":S" ++
            toString (receiveNextRow receiptKS),
          [[Cell.str clock.timestamp, Cell.str req.itemCode, Cell.num (.fin q),
            Cell.str req.location, Cell.str ((row[cD]?).getD ""), Cell.str ((row[cR]?).getD ""),
            Cell.str req.receivedBy, Cell.str (req.notes.getD ""),
            Cell.str ((row[cIm]?).getD "")]]⟩,
         ⟨"Inventory!" ++ getColumnLetter (cQ : Int) ++ toString (i + 1 + 1),
          [[Cell.num (cv.add (.fin q))]]⟩]⟩ := by
  unfold receiveInventory
  rw [if_neg (by push_neg; exact ⟨h1, h2, h3, h5⟩)]
  have hlen2 : ¬ rows.length < 2 := by omega
  simp only [List.headD_eq_head?_getD] at hcL hcI hcD hcQ hcR hcIm
  simp only [List.drop_one] at htgt
  simp [hlen2, hcL, hcI, hcD, hcQ, hcR, hcIm, htgt, hq, hcur, JVal.isNaNb, JVal.leZero,
    hqpos.not_le]

/-- Invalid-quantity path of `receiveInventory` (lines 383-385). -/
lemma receiveInventory_invalid (cL cI cD cQ cR cIm i : Nat) (row : List String)
    (h1 : req.itemCode ≠ "") (h2 : req.receiptQty ≠ "") (h3 : req.receivedBy ≠ "")
    (h5 : req.location ≠ "")
    (hlen : 2 ≤ rows.length)
    (hcL : jsIndexOf "Location" (rows.headD []) = some cL)
    (hcI : jsIndexOf "Item Code" (rows.headD []) = some cI)
    (hcD : jsIndexOf "Description" (rows.headD []) = some cD)
    (hcQ : jsIndexOf "Qty" (rows.headD []) = some cQ)
    (hcR : jsIndexOf "Returnable Item" (rows.headD []) = some cR)
    (hcIm : jsIndexOf "Image Link" (rows.headD []) = some cIm)
    (htgt : findTarget req.itemCode req.location cI cL (rows.drop 1) 0 = some (i, row))
    (hv : (parseFloat req.receiptQty).isNaNb = true ∨ (parseFloat req.receiptQty).leZero = true) :
    receiveInventory req (some rows) receiptKS clock =
      ⟨400, some "Invalid receipt quantity", []⟩ := by
  unfold receiveInventory
  rw [if_neg (by push_neg; exact ⟨h1, h2, h3, h5⟩)]
  have hlen2 : ¬ rows.length < 2 := by omega
  simp only [List.headD_eq_head?_getD] at hcL hcI hcD hcQ hcR hcIm
  simp only [List.drop_one] at htgt
  simp [hlen2, hcL, hcI, hcD, hcQ, hcR, hcIm, htgt]
  intro ha
  rcases hv with h | h <;> simp_all

/-- Converse of `receiveInventory_invalid`: a parsed quantity that is neither
NaN nor nonpositive is never answered with the invalid-quantity rejection. -/
lemma receiveInventory_not_invalid (cL cI cD cQ cR cIm i : Nat) (row : List String)
    (h1 : req.itemCode ≠ "") (h2 : req.receiptQty ≠ "") (h3 : req.receivedBy ≠ "")
    (h5 : req.location ≠ "")
    (hlen : 2 ≤ rows.length)
    (hcL : jsIndexOf "Location" (rows.headD []) = some cL)
    (hcI : jsIndexOf "Item Code" (rows.headD []) = some cI)
    (hcD : jsIndexOf "Description" (rows.headD []) = some cD)
    (hcQ : jsIndexOf "Qty" (rows.headD []) = some cQ)
    (hcR : jsIndexOf "Returnable Item" (rows.headD []) = some cR)
    (hcIm : jsIndexOf "Image Link" (rows.headD []) = some cIm)
    (htgt : findTarget req.itemCode req.location cI cL (rows.drop 1) 0 = some (i, row))
    (hv : ¬ ((parseFloat req.receiptQty).isNaNb = true ∨ (parseFloat req.receiptQty).leZero = true)) :
    receiveInventory req (some rows) receiptKS clock ≠
      ⟨400, some "Invalid receipt quantity", []⟩ := by
  unfold receiveInventory
  rw [if_neg (by push_neg; exact ⟨h1, h2, h3, h5⟩)]
  have hlen2 : ¬ rows.length < 2 := by omega
  simp only [List.headD_eq_head?_getD] at hcL hcI hcD hcQ hcR hcIm
  simp only [List.drop_one] at htgt
  simp [hlen2, hcL, hcI, hcD, hcQ, hcR, hcIm, htgt, hv]

end ReceiveLemmas

/-- Specification cell match for `search(keyword)`: the cell's string form
contains the keyword as a case-insensitive substring. -/
def specCellMatches (keyword field : String) : Bool :=
  strIncludes (jsToLower field) (jsToLower keyword)

/-- Specification row match: some cell of the row matches the keyword. -/
def specRowMatches (keyword : String) (row : List String) : Bool :=
  row.any (specCellMatches keyword)

/-- Projection of a data row into a name-to-value record keyed by the header
row, with absent cells becoming empty strings. -/
def specProject (headers row : List String) : List (String × String) :=
  headers.enum.map fun p => (p.2, (row[p.1]?).getD "")

lemma specCellMatches_empty_cell (kw : String) (hk : kw ≠ "") : specCellMatches kw "" = false := by
  have hdata : kw.data ≠ [] := fun hd => hk (String.ext (by simp [hd]))
  unfold specCellMatches strIncludes jsToLower
  cases hK : kw.data with
  | nil => exact absurd hK hdata
  | cons c t => simp [listIncludes, List.isPrefixOf]

lemma codeRowMatch_eq_spec (kw : String) (hk : kw ≠ "") (row : List String) :
    (row.any fun field => field ≠ "" && strIncludes (jsToLower field) (jsToLower kw)) =
      specRowMatches kw row := by
  unfold specRowMatches
  induction row with
  | nil => rfl
  | cons c t ih =>
    simp only [List.any_cons, ih]
    by_cases hc : c = ""
    · subst hc
      simp [specCellMatches_empty_cell kw hk]
    · simp [hc, specCellMatches]

/-- Success-path equation for `searchInventory` on a non-empty table: the
results are exactly the data rows with a matching cell, projected through the
header row. -/
lemma searchInventory_spec (keyword : String) (hs : List String) (data : List (List String))
    (hk : keyword ≠ "") :
    searchInventory keyword (some (hs :: data)) =
      ⟨200, none, (data.filter (specRowMatches keyword)).map (specProject hs)⟩ := by
  unfold searchInventory
  rw [if_neg hk]
  simp only [List.length_cons, List.headD_cons, List.drop_succ_cons, List.drop_zero]
  rw [if_neg (by omega)]
  rw [List.filter_congr (fun row _ => codeRowMatch_eq_spec keyword hk row)]
  rfl

/-- Specification rendering of a zero-padded two-digit field. -/
def specTwoDigit (n : Nat) : String :=
  String.mk [Nat.digitChar (n / 10), Nat.digitChar (n % 10)]

/-- Specification rendering of a four-digit year. -/
def specFourDigitYear (y : Nat) : String :=
  String.mk [Nat.digitChar (y / 1000), Nat.digitChar (y / 100 % 10),
    Nat.digitChar (y / 10 % 10), Nat.digitChar (y % 10)]

/-- Specification 12-hour wall-clock hour: hour 0 becomes 12, hours 13-23
drop 12, the rest stay. -/
def specHour12 (h : Nat) : Nat :=
  if h = 0 then 12 else if h ≤ 12 then h else h - 12

/-- Specification meridiem: AM for wall-clock hours 0-11, PM for 12-23. -/
def specAmPm (h : Nat) : String :=
  if h < 12 then "AM" else "PM"

/-- Specification timestamp `YYYY-MM-DD, h:mm:ss AM/PM` (spec section 4.3),
assembled from the spec's words. -/
def specTimestamp (year month day hours minutes seconds : Nat) : String :=
  specFourDigitYear year ++ "-" ++ specTwoDigit month ++ "-" ++ specTwoDigit day ++ ", " ++
    toString (specHour12 hours) ++ ":" ++ specTwoDigit minutes ++ ":" ++ specTwoDigit seconds ++
    " " ++ specAmPm hours

lemma toDigitsCore_succ (b f n : Nat) (l : List Char) :
    Nat.toDigitsCore b (f + 1) n l =
      if n / b = 0 then Nat.digitChar (n % b) :: l
      else Nat.toDigitsCore b f (n / b) (Nat.digitChar (n % b) :: l) := rfl

lemma repr_four_digits (y : Nat) (h1 : 1000 ≤ y) (h2 : y < 10000) :
    toString y = specFourDigitYear y := by
  obtain ⟨m, rfl⟩ : ∃ m, y = m + 1000 := ⟨y - 1000, by omega⟩
  show Nat.repr (m + 1000) = specFourDigitYear (m + 1000)
  unfold Nat.repr Nat.toDigits
  rw [toDigitsCore_succ, if_neg (by omega)]
  rw [show m + 1000 = (m + 999) + 1 by omega, toDigitsCore_succ, if_neg (by omega)]
  rw [show m + 999 = (m + 998) + 1 by omega, toDigitsCore_succ, if_neg (by omega)]
  rw [show m + 998 = (m + 997) + 1 by omega, toDigitsCore_succ, if_pos (by omega)]
  unfold specFourDigitYear
  have d3 : (m + 999 + 1) / 10 / 10 / 10 % 10 = (m + 1000) / 1000 := by omega
  have d2 : (m + 999 + 1) / 10 / 10 % 10 = (m + 1000) / 100 % 10 := by omega
  have d1 : (m + 999 + 1) / 10 % 10 = (m + 1000) / 10 % 10 := by omega
  have d0 : (m + 999 + 1) % 10 = (m + 1000) % 10 := by omega
  rw [d3, d2, d1, d0]
  rfl

lemma jsPadStart_two : ∀ n, n < 100 → jsPadStart (toString n) 2 '0' = specTwoDigit n := by decide

lemma hour12_eq_spec : ∀ h, h < 24 → (if h % 12 = 0 then 12 else h % 12) = specHour12 h := by
  decide

lemma ampm_eq_spec : ∀ h, h < 24 → (if h ≥ 12 then "PM" else "AM") = specAmPm h := by decide

/-- Source timestamp construction versus the specification's format, for
every in-range clock reading. -/
lemma formatTimestamp_eq_spec (y m d h mi s : Nat) (hy1 : 1000 ≤ y) (hy2 : y < 10000)
    (hm : m < 100) (hd : d < 100) (hh : h < 24) (hmi : mi < 100) (hs : s < 100) :
    formatTimestamp y m d h mi s = specTimestamp y m d h mi s := by
  simp only [formatTimestamp, specTimestamp]
  rw [repr_four_digits y hy1 hy2, jsPadStart_two m hm, jsPadStart_two d hd,
    jsPadStart_two mi hmi, jsPadStart_two s hs, hour12_eq_spec h hh, ampm_eq_spec h hh]

/-- Uppercase alphabet used by the specification's label sequence. -/
def letterChars : List Char := (List.range 26).map fun k => Char.ofNat (65 + k)

/-- Specification label sequence A, B, ..., Z, AA, AB, ..., ZZ: all
one-letter labels in alphabetical order followed by all two-letter labels in
lexicographic order. -/
def specLabels : List String :=
  (letterChars.map fun c => String.mk [c]) ++
    (letterChars.flatMap fun a => letterChars.map fun b => String.mk [a, b])

lemma specLabels_nodup : specLabels.Nodup := by
  have hch : letterChars.Nodup := by decide
  refine List.Nodup.append ?_ ?_ ?_
  · exact hch.map fun a b h => by simpa using congrArg String.data h
  · rw [List.nodup_flatMap]
    refine ⟨fun a _ => hch.map fun b c h => by simpa using congrArg String.data h, ?_⟩
    refine hch.imp ?_
    intro a b hab
    intro s hsa hsb
    obtain ⟨x, _, rfl⟩ := List.mem_map.mp hsa
    obtain ⟨y, _, hy⟩ := List.mem_map.mp hsb
    exact hab (by simpa using congrArg (fun t => t.data.headD 'Z') hy.symm)
  · rw [List.disjoint_left]
    intro s hs hs2
    obtain ⟨c, _, rfl⟩ := List.mem_map.mp hs
    obtain ⟨a, _, hmem⟩ := List.mem_flatMap.mp hs2
    obtain ⟨b, _, hb⟩ := List.mem_map.mp hmem
    have := congrArg (fun t => t.data.length) hb
    simp at this

set_option maxRecDepth 400000 in
lemma getColumnLetter_range_eq : (List.range 702).map (fun i => getColumnLetter (i : Int)) = specLabels := by
  decide

/-- Header row of the Inventory tab used in the concrete scenarios of the
spec (section 8). -/
def invHeaders : List String :=
  ["Location", "Item Code", "Description", "UOM", "Qty", "Condition", "Returnable Item",
   "Category", "Date Counted", "Image Link"]

/-- Scenario inventory row: item X1 at location W1 with quantity 10. -/
def invRowX1 : List String :=
  ["W1", "X1", "widget", "EA", "10", "Good", "No", "Tools", "2024-01-01", "http://img"]

/-- Scenario Inventory tab: header row plus the X1 row. -/
def invTable : List (List String) := [invHeaders, invRowX1]

/-- Scenario issue request: 4 units of X1 from W1. -/
def issueReq4 : IssueRequest :=
  { itemCode := "X1", issuanceQty := "4", issuedBy := "alice", activity := "maint",
    notes := none, location := "W1" }

/-- Scenario clock. -/
def demoClock : Clock :=
  { getFullYear := 2024, getMonth := 5, getDate := 7, getHours := 0, getMinutes := 3,
    getSeconds := 9 }

/-- C1: for every issue request with valid inputs whose requested quantity is
at most the located row's current quantity, the handler succeeds and performs
exactly two writes: one new transaction record in the issuance band A-J
(carrying the requested quantity as the delta, at the blank row chosen for
that band) and the value `currentQty - requestedQty` into the located row's
quantity cell. -/
theorem claim_C1_issue_success (req : IssueRequest) (rows : List (List String))
    (formAJ : Option (List (List String))) (clock : Clock)
    (cL cI cD cQ cR cIm i : Nat) (row : List String) (q cq : ℚ)
    (h1 : req.itemCode ≠ "") (h2 : req.issuanceQty ≠ "") (h3 : req.issuedBy ≠ "")
    (h4 : req.activity ≠ "") (h5 : req.location ≠ "")
    (hlen : 2 ≤ rows.length)
    (hcL : jsIndexOf "Location" (rows.headD []) = some cL)
    (hcI : jsIndexOf "Item Code" (rows.headD []) = some cI)
    (hcD : jsIndexOf "Description" (rows.headD []) = some cD)
    (hcQ : jsIndexOf "Qty" (rows.headD []) = some cQ)
    (hcR : jsIndexOf "Returnable Item" (rows.headD []) = some cR)
    (hcIm : jsIndexOf "Image Link" (rows.headD []) = some cIm)
    (htgt : findTarget req.itemCode req.location cI cL (rows.drop 1) 0 = some (i, row))
    (hq : parseFloat req.issuanceQty = .fin q) (hqpos : 0 < q)
    (hcur : (parseCellFloat row[cQ]?).orZero = .fin cq)
    (hle : q ≤ cq) :
    issueInventory req (some rows) formAJ clock =
      ⟨200, none,
        [⟨"Form Responses!A" ++ toString (findFirstBlankRowAtoJ formAJ) ++ ":J" ++
            toString (findFirstBlankRowAtoJ formAJ),
          [[Cell.str clock.timestamp, Cell.str req.itemCode, Cell.num (.fin q),
            Cell.str req.location, Cell.str ((row[cD]?).getD ""), Cell.str ((row[cR]?).getD ""),
            Cell.str req.issuedBy, Cell.str req.activity, Cell.str (req.notes.getD ""),
            Cell.str ((row[cIm]?).getD "")]]⟩,
         ⟨"Inventory!" ++ getColumnLetter (cQ : Int) ++ toString (i + 2),
          [[Cell.num (.fin (cq - q))]]⟩]⟩ :=
  issueInventory_success req rows formAJ clock cL cI cD cQ cR cIm i row q cq
    h1 h2 h3 h4 h5 hlen hcL hcI hcD hcQ hcR hcIm htgt hq hqpos hcur hle

/-- Witness for C1 at the spec's scenario: issuing 4 of X1 from W1 against a
current quantity of 10 writes one A-J transaction row with delta 4 and the
quantity 10 - 4 = 6 into cell E2. -/
theorem claim_C1_witness :
    issueReq4.itemCode ≠ "" ∧ issueReq4.issuanceQty ≠ "" ∧ issueReq4.issuedBy ≠ "" ∧
    issueReq4.activity ≠ "" ∧ issueReq4.location ≠ "" ∧ 2 ≤ invTable.length ∧
    jsIndexOf "Location" (invTable.headD []) = some 0 ∧
    jsIndexOf "Item Code" (invTable.headD []) = some 1 ∧
    jsIndexOf "Description" (invTable.headD []) = some 2 ∧
    jsIndexOf "Qty" (invTable.headD []) = some 4 ∧
    jsIndexOf "Returnable Item" (invTable.headD []) = some 6 ∧
    jsIndexOf "Image Link" (invTable.headD []) = some 9 ∧
    findTarget issueReq4.itemCode issueReq4.location 1 0 (invTable.drop 1) 0 =
      some (0, invRowX1) ∧
    parseFloat issueReq4.issuanceQty = .fin 4 ∧ (0 : ℚ) < 4 ∧
    (parseCellFloat invRowX1[4]?).orZero = .fin 10 ∧ (4 : ℚ) ≤ 10 ∧
    issueInventory issueReq4 (some invTable) (some [["x"]]) demoClock =
      ⟨200, none,
        [⟨"Form Responses!A" ++ toString (findFirstBlankRowAtoJ (some [["x"]])) ++ ":J" ++
            toString (findFirstBlankRowAtoJ (some [["x"]])),
          [[Cell.str demoClock.timestamp, Cell.str issueReq4.itemCode, Cell.num (.fin 4),
            Cell.str issueReq4.location, Cell.str ((invRowX1[2]?).getD ""),
            Cell.str ((invRowX1[6]?).getD ""), Cell.str issueReq4.issuedBy,
            Cell.str issueReq4.activity, Cell.str (issueReq4.notes.getD ""),
            Cell.str ((invRowX1[9]?).getD "")]]⟩,
         ⟨"Inventory!" ++ getColumnLetter (4 : Int) ++ toString (0 + 2),
          [[Cell.num (.fin (10 - 4))]]⟩]⟩ :=
  by
  refine ⟨?_, ?_, ?_, ?_, ?_, ?_, ?_, ?_, ?_, ?_, ?_, ?_, ?_, ?_, ?_, ?_, ?_,
    claim_C1_issue_success issueReq4 invTable (some [["x"]]) demoClock 0 1 2 4 6 9 0 invRowX1
      4 10 ?_ ?_ ?_ ?_ ?_ ?_ ?_ ?_ ?_ ?_ ?_ ?_ ?_ ?_ ?_ ?_ ?_⟩ <;> decide

/-- C2: every issue request whose parsed positive quantity exceeds the
located row's current quantity is rejected with the insufficient-stock client
error (status 400, the not-enough-quantity message) and no write at all, so
the stored quantity is untouched. -/
theorem claim_C2_issue_insufficient (req : IssueRequest) (rows : List (List String))
    (formAJ : Option (List (List String))) (clock : Clock)
    (cL cI cD cQ cR cIm i : Nat) (row : List String) (q : ℚ)
    (h1 : req.itemCode ≠ "") (h2 : req.issuanceQty ≠ "") (h3 : req.issuedBy ≠ "")
    (h4 : req.activity ≠ "") (h5 : req.location ≠ "")
    (hlen : 2 ≤ rows.length)
    (hcL : jsIndexOf "Location" (rows.headD []) = some cL)
    (hcI : jsIndexOf "Item Code" (rows.headD []) = some cI)
    (hcD : jsIndexOf "Description" (rows.headD []) = some cD)
    (hcQ : jsIndexOf "Qty" (rows.headD []) = some cQ)
    (hcR : jsIndexOf "Returnable Item" (rows.headD []) = some cR)
    (hcIm : jsIndexOf "Image Link" (rows.headD []) = some cIm)
    (htgt : findTarget req.itemCode req.location cI cL (rows.drop 1) 0 = some (i, row))
    (hq : parseFloat req.issuanceQty = .fin q) (hqpos : 0 < q)
    (hlt : JVal.lt ((parseCellFloat row[cQ]?).orZero) (.fin q) = true) :
    issueInventory req (some rows) formAJ clock =
      ⟨400, some "Not enough quantity in inventory to fulfill issuance", []⟩ :=
  issueInventory_insufficient req rows formAJ clock cL cI cD cQ cR cIm i row q
    h1 h2 h3 h4 h5 hlen hcL hcI hcD hcQ hcR hcIm htgt hq hqpos hlt

/-- Scenario issue request asking for more than the stock: 20 units of X1. -/
def issueReq20 : IssueRequest :=
  { itemCode := "X1", issuanceQty := "20", issuedBy := "alice", activity := "maint",
    notes := none, location := "W1" }

/-- Witness for C2 at the spec's scenario: issuing 20 of X1 against a current
quantity of 10 is rejected and nothing is written. -/
theorem claim_C2_witness :
    issueReq20.itemCode ≠ "" ∧ issueReq20.issuanceQty ≠ "" ∧ issueReq20.issuedBy ≠ "" ∧
    issueReq20.activity ≠ "" ∧ issueReq20.location ≠ "" ∧ 2 ≤ invTable.length ∧
    jsIndexOf "Location" (invTable.headD []) = some 0 ∧
    jsIndexOf "Item Code" (invTable.headD []) = some 1 ∧
    jsIndexOf "Description" (invTable.headD []) = some 2 ∧
    jsIndexOf "Qty" (invTable.headD []) = some 4 ∧
    jsIndexOf "Returnable Item" (invTable.headD []) = some 6 ∧
    jsIndexOf "Image Link" (invTable.headD []) = some 9 ∧
    findTarget issueReq20.itemCode issueReq20.location 1 0 (invTable.drop 1) 0 =
      some (0, invRowX1) ∧
    parseFloat issueReq20.issuanceQty = .fin 20 ∧ (0 : ℚ) < 20 ∧
    JVal.lt ((parseCellFloat invRowX1[4]?).orZero) (.fin 20) = true ∧
    issueInventory issueReq20 (some invTable) (some [["x"]]) demoClock =
      ⟨400, some "Not enough quantity in inventory to fulfill issuance", []⟩ :=
  by
  refine ⟨?_, ?_, ?_, ?_, ?_, ?_, ?_, ?_, ?_, ?_, ?_, ?_, ?_, ?_, ?_, ?_,
    claim_C2_issue_insufficient issueReq20 invTable (some [["x"]]) demoClock 0 1 2 4 6 9 0
      invRowX1 20 ?_ ?_ ?_ ?_ ?_ ?_ ?_ ?_ ?_ ?_ ?_ ?_ ?_ ?_ ?_ ?_⟩ <;> decide

/-- C4: both `findFirstBlankRowAtoJ` and `findFirstBlankRowTtoAA` implement
the BlankRowFinder contract: with the first blank row (all cells within the
band width absent or whitespace-only) at position `k` they return the
physical row of position `k` (offset 1 for the A-J band fetched from row 1,
offset 2 for the T-AA band fetched from row 2), never a later position; with
no blank row they return the row immediately after the last fetched row. -/
theorem claim_C4_findInsertionRow :
    (∀ (rows : List (List String)) (k : Nat), k < rows.length →
      specIsBlankRow 10 (rows.getD k []) = true →
      (∀ j, j < k → specIsBlankRow 10 (rows.getD j []) = false) →
      findFirstBlankRowAtoJ (some rows) = k + 1) ∧
    (∀ rows : List (List String),
      (∀ j, j < rows.length → specIsBlankRow 10 (rows.getD j []) = false) →
      findFirstBlankRowAtoJ (some rows) = rows.length + 1) ∧
    (∀ (rows : List (List String)) (k : Nat), k < rows.length →
      specIsBlankRow 8 (rows.getD k []) = true →
      (∀ j, j < k → specIsBlankRow 8 (rows.getD j []) = false) →
      findFirstBlankRowTtoAA (some rows) = k + 2) ∧
    (∀ rows : List (List String),
      (∀ j, j < rows.length → specIsBlankRow 8 (rows.getD j []) = false) →
      findFirstBlankRowTtoAA (some rows) = rows.length + 2) := by
  refine ⟨?_, ?_, ?_, ?_⟩
  · intro rows k hk hb hmin
    rw [findFirstBlankRowAtoJ_eq_spec]
    simpa using specFindInsertionRowAux_first_blank 1 10 rows k 0 hk hb hmin
  · intro rows hmin
    rw [findFirstBlankRowAtoJ_eq_spec]
    simpa using specFindInsertionRowAux_no_blank 1 10 rows 0 hmin
  · intro rows k hk hb hmin
    rw [findFirstBlankRowTtoAA_eq_spec]
    simpa using specFindInsertionRowAux_first_blank 2 8 rows k 0 hk hb hmin
  · intro rows hmin
    rw [findFirstBlankRowTtoAA_eq_spec]
    simpa using specFindInsertionRowAux_no_blank 2 8 rows 0 hmin

/-- Band with a non-blank first row, a blank second row (whitespace only) and
a blank third row, exercising first-blank-wins. -/
def bandWithBlank : List (List String) := [["x", "y"], [" ", ""], []]

/-- Band with no blank row. -/
def bandFull : List (List String) := [["x"], ["y", "", "z"]]

/-- Witness for C4: over `bandWithBlank` the first blank position is 1, so
the A-J finder answers 2 and the T-AA finder answers 3; over `bandFull` there
is no blank row and the finders answer one past the fetched data. -/
theorem claim_C4_witness :
    (1 < bandWithBlank.length ∧ specIsBlankRow 10 (bandWithBlank.getD 1 []) = true ∧
      specIsBlankRow 10 (bandWithBlank.getD 0 []) = false ∧
      findFirstBlankRowAtoJ (some bandWithBlank) = 2) ∧
    (1 < bandWithBlank.length ∧ specIsBlankRow 8 (bandWithBlank.getD 1 []) = true ∧
      specIsBlankRow 8 (bandWithBlank.getD 0 []) = false ∧
      findFirstBlankRowTtoAA (some bandWithBlank) = 3) ∧
    (findFirstBlankRowAtoJ (some bandFull) = bandFull.length + 1) ∧
    (findFirstBlankRowTtoAA (some bandFull) = bandFull.length + 2) :=
  by
  refine ⟨⟨?_, ?_, ?_, claim_C4_findInsertionRow.1 bandWithBlank 1 ?_ ?_ ?_⟩,
    ⟨?_, ?_, ?_, claim_C4_findInsertionRow.2.2.1 bandWithBlank 1 ?_ ?_ ?_⟩,
    claim_C4_findInsertionRow.2.1 bandFull ?_,
    claim_C4_findInsertionRow.2.2.2 bandFull ?_⟩ <;> decide

/-- C5 counterexample: a malformed `entry` payload (the `JSON.parse`
exception) is answered by the catch-all handler with the generic 500 error,
not with a 400 client error, so the claim's `ValidationError` is wrong. -/
theorem claim_C5_counterexample :
    addInventoryWithImage true true "http://img" none "2024-06-07" =
      ⟨500, some "Failed to add inventory entry and upload image", []⟩ ∧
    (addInventoryWithImage true true "http://img" none "2024-06-07").status ≠ 400 := by
  decide

/-- C5 amended: with a file present and the folder configured, a malformed
`entry` JSON payload is mapped to the generic 500 server error of the
catch-all handler, while an entry missing required keys does not fail at all:
the row is appended (with `undefined` cells for the missing keys) and 201 is
returned. -/
theorem claim_C5_amended (imageLink currentDate : String) :
    addInventoryWithImage true true imageLink none currentDate =
      ⟨500, some "Failed to add inventory entry and upload image", []⟩ ∧
    (∀ e : List (String × String),
      (addInventoryWithImage true true imageLink (some e) currentDate).status = 201) :=
  ⟨rfl, fun _ => rfl⟩

/-- C7: `search(keyword)` with a non-empty keyword answers 404 (NotFound)
when the fetched table is absent or has no rows at all, and otherwise returns
exactly the data rows in which some cell contains the keyword as a
case-insensitive substring, each projected through the header row into a
name-to-value record. -/
theorem claim_C7_search (keyword : String) (hk : keyword ≠ "") :
    searchInventory keyword none = ⟨404, some "No inventory data found", []⟩ ∧
    searchInventory keyword (some []) = ⟨404, some "No inventory data found", []⟩ ∧
    ∀ (hs : List String) (data : List (List String)),
      searchInventory keyword (some (hs :: data)) =
        ⟨200, none, (data.filter (specRowMatches keyword)).map (specProject hs)⟩ := by
  refine ⟨?_, ?_, fun hs data => searchInventory_spec keyword hs data hk⟩
  · simp [searchInventory, hk]
  · simp [searchInventory, hk]

/-- Witness for C7 at the spec's scenario: searching "W1" over the scenario
table keeps exactly the rows matched by the spec predicate, and the empty and
absent tables give 404. -/
theorem claim_C7_witness :
    ("W1" : String) ≠ "" ∧
    searchInventory "W1" none = ⟨404, some "No inventory data found", []⟩ ∧
    searchInventory "W1" (some []) = ⟨404, some "No inventory data found", []⟩ ∧
    searchInventory "W1" (some (invHeaders :: [invRowX1])) =
      ⟨200, none,
        (([invRowX1]).filter (specRowMatches "W1")).map (specProject invHeaders)⟩ :=
  ⟨by decide, (claim_C7_search "W1" (by decide)).1, (claim_C7_search "W1" (by decide)).2.1,
   (claim_C7_search "W1" (by decide)).2.2 invHeaders [invRowX1]⟩

/-- C8: for every in-range clock reading, the timestamp the handlers build
(issue lines 237-251, receive lines 390-404, addNewItemWithoutCode lines
575-589 all share this construction) equals the specification format
`YYYY-MM-DD, h:mm:ss AM/PM`: four-digit year, zero-padded two-digit month,
day, minute and second, unpadded 12-hour hour with hour 0 rendered as 12, AM
for wall-clock hours 0-11 and PM for 12-23. -/
theorem claim_C8_timestamp (c : Clock) (hy1 : 1000 ≤ c.getFullYear) (hy2 : c.getFullYear ≤ 9999)
    (hm : c.getMonth ≤ 11) (hd : c.getDate ≤ 31) (hh : c.getHours ≤ 23)
    (hmi : c.getMinutes ≤ 59) (hs : c.getSeconds ≤ 59) :
    c.timestamp =
      specTimestamp c.getFullYear (c.getMonth + 1) c.getDate c.getHours c.getMinutes
        c.getSeconds :=
  formatTimestamp_eq_spec c.getFullYear (c.getMonth + 1) c.getDate c.getHours c.getMinutes
    c.getSeconds hy1 (by omega) (by omega) (by omega) (by omega) (by omega) (by omega)

/-- Witness for C8 at the scenario clock (a midnight-hour reading, checking
the 0-to-12 normalization). -/
theorem claim_C8_witness :
    1000 ≤ demoClock.getFullYear ∧ demoClock.getFullYear ≤ 9999 ∧ demoClock.getMonth ≤ 11 ∧
    demoClock.getDate ≤ 31 ∧ demoClock.getHours ≤ 23 ∧ demoClock.getMinutes ≤ 59 ∧
    demoClock.getSeconds ≤ 59 ∧
    demoClock.timestamp =
      specTimestamp demoClock.getFullYear (demoClock.getMonth + 1) demoClock.getDate
        demoClock.getHours demoClock.getMinutes demoClock.getSeconds ∧
    demoClock.timestamp = "2024-06-07, 12:03:09 AM" :=
  by
  refine ⟨?_, ?_, ?_, ?_, ?_, ?_, ?_,
    claim_C8_timestamp demoClock ?_ ?_ ?_ ?_ ?_ ?_ ?_, ?_⟩ <;> decide

/-- C9: the column-letter encoding is the bijective base-26 sequence: index 0
is A, 25 is Z, 26 is AA, and on indices 0..701 it enumerates exactly the
labels A through ZZ with no repetition (hence a bijection onto them). -/
theorem claim_C9_column_letters :
    getColumnLetter 0 = "A" ∧ getColumnLetter 25 = "Z" ∧ getColumnLetter 26 = "AA" ∧
    (List.range 702).map (fun i => getColumnLetter (i : Int)) = specLabels ∧
    specLabels.Nodup :=
  ⟨by decide, by decide, by decide, getColumnLetter_range_eq, specLabels_nodup⟩

lemma receiveLastRowAux_all_blank :
    ∀ (rows : List (List String)) (i acc : Nat),
      (∀ k, k < rows.length → ((rows.getD k []).any fun c => jsTrim c ≠ "") = false) →
      receiveLastRowAux rows i acc = acc := by
  intro rows
  induction rows with
  | nil => intro i acc _; rfl
  | cons r rest ih =>
    intro i acc hnone
    unfold receiveLastRowAux
    have h0 : (r.any fun c => jsTrim c ≠ "") = false := by simpa using hnone 0 (by simp)
    rw [h0]
    simp only [Bool.false_eq_true, if_false]
    exact ih (i + 1) acc fun k hk => by simpa using hnone (k + 1) (by simp; omega)

lemma receiveLastRowAux_last :
    ∀ (rows : List (List String)) (i acc j : Nat), j < rows.length →
      ((rows.getD j []).any fun c => jsTrim c ≠ "") = true →
      (∀ k, j < k → k < rows.length → ((rows.getD k []).any fun c => jsTrim c ≠ "") = false) →
      receiveLastRowAux rows i acc = i + j + 3 := by
  intro rows
  induction rows with
  | nil => intro i acc j hj; simp at hj
  | cons r rest ih =>
    intro i acc j hj hdata hlast
    unfold receiveLastRowAux
    match j with
    | 0 =>
      have hb : (r.any fun c => decide (jsTrim c ≠ "")) = true := by simpa using hdata
      split
      · rw [receiveLastRowAux_all_blank rest (i + 1) (i + 3)
          fun k hk => by simpa using hlast (k + 1) (by omega) (by simp only [List.length_cons]; omega)]
      · next hcond => exact absurd hb hcond
    | j' + 1 =>
      have hj2 : j' < rest.length := by simpa using hj
      have hd2 : ((rest.getD j' []).any fun c => decide (jsTrim c ≠ "")) = true := by
        simpa using hdata
      have hl2 : ∀ k, j' < k → k < rest.length →
          ((rest.getD k []).any fun c => decide (jsTrim c ≠ "")) = false :=
        fun k hk1 hk2 => by simpa using hlast (k + 1) (by omega) (by simp only [List.length_cons]; omega)
      split
      · rw [ih (i + 1) (i + 3) j' hj2 hd2 hl2]
        omega
      · rw [ih (i + 1) acc j' hj2 hd2 hl2]
        omega

/-- Scenario receive request: 5 units of X1 into W1. -/
def recvReq5 : ReceiveRequest :=
  { itemCode := "X1", receiptQty := "5", receivedBy := "bob", notes := none, location := "W1" }

/-- Receipt band K3:S with a blank first data row followed by a data row:
first-blank semantics would insert at physical row 3, the source inserts
after the last data row. -/
def ksBand : List (List String) := [[""], ["x"]]

/-- C3 counterexample: on `ksBand` the receive handler writes its transaction
record at row 5 (one past the last data row), while BlankRowFinder semantics
(first blank row of the band, header offset 3) selects row 3 — so the
receive insertion row is not determined by BlankRowFinder. -/
theorem claim_C3_counterexample :
    ((receiveInventory recvReq5 (some invTable) (some ksBand) demoClock).writes.headD
        ⟨"", []⟩).range = "Form Responses!K5:S5" ∧
    specFindInsertionRow ksBand 3 9 = 3 ∧
    ((receiveInventory recvReq5 (some invTable) (some ksBand) demoClock).writes.headD
        ⟨"", []⟩).range ≠
      "Form Responses!K" ++ toString (specFindInsertionRow ksBand 3 9) ++ ":S" ++
        toString (specFindInsertionRow ksBand 3 9) := by
  decide

lemma receiveNextRow_last (ksRows : List (List String)) (j : Nat) (hj : j < ksRows.length)
    (hdata : ((ksRows.getD j []).any fun c => jsTrim c ≠ "") = true)
    (hlast : ∀ k, j < k → k < ksRows.length →
      ((ksRows.getD k []).any fun c => jsTrim c ≠ "") = false) :
    receiveNextRow (some ksRows) = j + 4 := by
  unfold receiveNextRow
  simp only [Option.getD_some]
  rw [receiveLastRowAux_last ksRows 0 2 j hj hdata hlast]
  omega

lemma receiveNextRow_empty (ksRows : List (List String))
    (hnone : ∀ k, k < ksRows.length → ((ksRows.getD k []).any fun c => jsTrim c ≠ "") = false) :
    receiveNextRow (some ksRows) = 3 := by
  unfold receiveNextRow
  simp only [Option.getD_some]
  rw [receiveLastRowAux_all_blank ksRows 0 2 hnone]

/-- C3 amended: the issuance band A-J does follow BlankRowFinder semantics
(first all-blank row, fallback one past the fetched rows), and every
successful issue writes its transaction record at that row; but the receipt
band K-S does not: a successful receive writes its record at one past the
last fetched band row containing a non-whitespace cell (physical row `j + 3`
for 0-based position `j`, so insertion at `j + 4`), or at row 3 when the
fetched band has no data, regardless of earlier blank rows. -/
theorem claim_C3_amended :
    (∀ formRows : List (List String),
      findFirstBlankRowAtoJ (some formRows) = specFindInsertionRow formRows 1 10) ∧
    (∀ (req : IssueRequest) (rows formRows : List (List String)) (clock : Clock)
      (cL cI cD cQ cR cIm i : Nat) (row : List String) (q cq : ℚ),
      req.itemCode ≠ "" → req.issuanceQty ≠ "" → req.issuedBy ≠ "" → req.activity ≠ "" →
      req.location ≠ "" → 2 ≤ rows.length →
      jsIndexOf "Location" (rows.headD []) = some cL →
      jsIndexOf "Item Code" (rows.headD []) = some cI →
      jsIndexOf "Description" (rows.headD []) = some cD →
      jsIndexOf "Qty" (rows.headD []) = some cQ →
      jsIndexOf "Returnable Item" (rows.headD []) = some cR →
      jsIndexOf "Image Link" (rows.headD []) = some cIm →
      findTarget req.itemCode req.location cI cL (rows.drop 1) 0 = some (i, row) →
      parseFloat req.issuanceQty = .fin q → 0 < q →
      (parseCellFloat row[cQ]?).orZero = .fin cq → q ≤ cq →
      ((issueInventory req (some rows) (some formRows) clock).writes.headD ⟨"", []⟩).range =
        "Form Responses!A" ++ toString (specFindInsertionRow formRows 1 10) ++ ":J" ++
          toString (specFindInsertionRow formRows 1 10)) ∧
    (∀ (req : ReceiveRequest) (rows ksRows : List (List String)) (clock : Clock)
      (cL cI cD cQ cR cIm i : Nat) (row : List String) (q : ℚ) (j : Nat),
      req.itemCode ≠ "" → req.receiptQty ≠ "" → req.receivedBy ≠ "" → req.location ≠ "" →
      2 ≤ rows.length →
      jsIndexOf "Location" (rows.headD []) = some cL →
      jsIndexOf "Item Code" (rows.headD []) = some cI →
      jsIndexOf "Description" (rows.headD []) = some cD →
      jsIndexOf "Qty" (rows.headD []) = some cQ →
      jsIndexOf "Returnable Item" (rows.headD []) = some cR →
      jsIndexOf "Image Link" (rows.headD []) = some cIm →
      findTarget req.itemCode req.location cI cL (rows.drop 1) 0 = some (i, row) →
      parseFloat req.receiptQty = .fin q → 0 < q →
      j < ksRows.length → ((ksRows.getD j []).any fun c => jsTrim c ≠ "") = true →
      (∀ k, j < k → k < ksRows.length →
        ((ksRows.getD k []).any fun c => jsTrim c ≠ "") = false) →
      ((receiveInventory req (some rows) (some ksRows) clock).writes.headD ⟨"", []⟩).range =
        "Form Responses!K" ++ toString (j + 4) ++ ":S" ++ toString (j + 4)) ∧
    (∀ (req : ReceiveRequest) (rows ksRows : List (List String)) (clock : Clock)
      (cL cI cD cQ cR cIm i : Nat) (row : List String) (q : ℚ),
      req.itemCode ≠ "" → req.receiptQty ≠ "" → req.receivedBy ≠ "" → req.location ≠ "" →
      2 ≤ rows.length →
      jsIndexOf "Location" (rows.headD []) = some cL →
      jsIndexOf "Item Code" (rows.headD []) = some cI →
      jsIndexOf "Description" (rows.headD []) = some cD →
      jsIndexOf "Qty" (rows.headD []) = some cQ →
      jsIndexOf "Returnable Item" (rows.headD []) = some cR →
      jsIndexOf "Image Link" (rows.headD []) = some cIm →
      findTarget req.itemCode req.location cI cL (rows.drop 1) 0 = some (i, row) →
      parseFloat req.receiptQty = .fin q → 0 < q →
      (∀ k, k < ksRows.length → ((ksRows.getD k []).any fun c => jsTrim c ≠ "") = false) →
      ((receiveInventory req (some rows) (some ksRows) clock).writes.headD ⟨"", []⟩).range =
        "Form Responses!K3:S3") := by
  refine ⟨findFirstBlankRowAtoJ_eq_spec, ?_, ?_, ?_⟩
  · intro req rows formRows clock cL cI cD cQ cR cIm i row q cq h1 h2 h3 h4 h5 hlen hcL hcI
      hcD hcQ hcR hcIm htgt hq hqpos hcur hle
    rw [issueInventory_success req rows (some formRows) clock cL cI cD cQ cR cIm i row q cq
      h1 h2 h3 h4 h5 hlen hcL hcI hcD hcQ hcR hcIm htgt hq hqpos hcur hle]
    simp only [List.headD_cons]
    rw [findFirstBlankRowAtoJ_eq_spec]
  · intro req rows ksRows clock cL cI cD cQ cR cIm i row q j h1 h2 h3 h5 hlen hcL hcI hcD hcQ
      hcR hcIm htgt hq hqpos hj hdata hlast
    rw [receiveInventory_success req rows (some ksRows) clock cL cI cD cQ cR cIm i row q
      ((parseCellFloat row[cQ]?).orZero) h1 h2 h3 h5 hlen hcL hcI hcD hcQ hcR hcIm htgt hq
      hqpos rfl]
    simp only [List.headD_cons]
    rw [receiveNextRow_last ksRows j hj hdata hlast]
  · intro req rows ksRows clock cL cI cD cQ cR cIm i row q h1 h2 h3 h5 hlen hcL hcI hcD hcQ
      hcR hcIm htgt hq hqpos hnone
    rw [receiveInventory_success req rows (some ksRows) clock cL cI cD cQ cR cIm i row q
      ((parseCellFloat row[cQ]?).orZero) h1 h2 h3 h5 hlen hcL hcI hcD hcQ hcR hcIm htgt hq
      hqpos rfl]
    simp only [List.headD_cons]
    rw [receiveNextRow_empty ksRows hnone]
    rfl

/-- Witness for C3: a successful issue writes at the BlankRowFinder row of
the fetched A-J band; a successful receive writes at one past the last data
row of the fetched K3:S band (row 5 on `ksBand`, row 3 when the band is
empty). -/
theorem claim_C3_witness :
    findFirstBlankRowAtoJ (some bandWithBlank) = specFindInsertionRow bandWithBlank 1 10 ∧
    ((issueInventory issueReq4 (some invTable) (some bandWithBlank) demoClock).writes.headD
        ⟨"", []⟩).range =
      "Form Responses!A" ++ toString (specFindInsertionRow bandWithBlank 1 10) ++ ":J" ++
        toString (specFindInsertionRow bandWithBlank 1 10) ∧
    ((receiveInventory recvReq5 (some invTable) (some ksBand) demoClock).writes.headD
        ⟨"", []⟩).range =
      "Form Responses!K" ++ toString (1 + 4) ++ ":S" ++ toString (1 + 4) ∧
    ((receiveInventory recvReq5 (some invTable) (some ([] : List (List String)))
        demoClock).writes.headD ⟨"", []⟩).range = "Form Responses!K3:S3" :=
  by
  refine ⟨claim_C3_amended.1 bandWithBlank,
    claim_C3_amended.2.1 issueReq4 invTable bandWithBlank demoClock 0 1 2 4 6 9 0 invRowX1
      4 10 ?_ ?_ ?_ ?_ ?_ ?_ ?_ ?_ ?_ ?_ ?_ ?_ ?_ ?_ ?_ ?_ ?_,
    claim_C3_amended.2.2.1 recvReq5 invTable ksBand demoClock 0 1 2 4 6 9 0 invRowX1 5 1
      ?_ ?_ ?_ ?_ ?_ ?_ ?_ ?_ ?_ ?_ ?_ ?_ ?_ ?_ ?_ ?_ ?_,
    claim_C3_amended.2.2.2 recvReq5 invTable [] demoClock 0 1 2 4 6 9 0 invRowX1 5
      ?_ ?_ ?_ ?_ ?_ ?_ ?_ ?_ ?_ ?_ ?_ ?_ ?_ ?_ ?_⟩ <;>
    first
    | decide
    | (intro k hk1 hk2; simp [ksBand] at hk2; omega)

/-- Scenario receive request with the non-finite quantity string. -/
def recvReqInf : ReceiveRequest :=
  { itemCode := "X1", receiptQty := "Infinity", receivedBy := "bob", notes := none,
    location := "W1" }

/-- C6 counterexample: the quantity gate only checks `isNaN` and `<= 0`, so
the non-finite parsed value Infinity is accepted: the receive succeeds with
status 200, writes the transaction record and stores Infinity as the new
quantity, instead of failing with a ValidationError as the claim requires for
a value that is not finite. -/
theorem claim_C6_counterexample :
    parseFloat "Infinity" = JVal.posInf ∧
    receiveInventory recvReqInf (some invTable) (some []) demoClock =
      ⟨200, none,
        [⟨"Form Responses!K3:S3",
          [[Cell.str demoClock.timestamp, Cell.str "X1", Cell.num JVal.posInf, Cell.str "W1",
            Cell.str "widget", Cell.str "No", Cell.str "bob", Cell.str "",
            Cell.str "http://img"]]⟩,
         ⟨"Inventory!E2", [[Cell.num JVal.posInf]]⟩]⟩ ∧
    (receiveInventory recvReqInf (some invTable) (some []) demoClock).status ≠ 400 := by
  decide

/-- C6 amended: for every issue and receive request that reaches quantity
parsing, the operation fails with the invalid-quantity ValidationError (and
writes nothing) exactly when the parsed value is NaN or at most 0; a parsed
value of positive Infinity passes the gate. -/
theorem claim_C6_amended :
    (∀ (req : IssueRequest) (rows : List (List String))
      (formAJ : Option (List (List String))) (clock : Clock)
      (cL cI cD cQ cR cIm i : Nat) (row : List String),
      req.itemCode ≠ "" → req.issuanceQty ≠ "" → req.issuedBy ≠ "" → req.activity ≠ "" →
      req.location ≠ "" → 2 ≤ rows.length →
      jsIndexOf "Location" (rows.headD []) = some cL →
      jsIndexOf "Item Code" (rows.headD []) = some cI →
      jsIndexOf "Description" (rows.headD []) = some cD →
      jsIndexOf "Qty" (rows.headD []) = some cQ →
      jsIndexOf "Returnable Item" (rows.headD []) = some cR →
      jsIndexOf "Image Link" (rows.headD []) = some cIm →
      findTarget req.itemCode req.location cI cL (rows.drop 1) 0 = some (i, row) →
      (issueInventory req (some rows) formAJ clock =
          ⟨400, some "Invalid issuance quantity", []⟩ ↔
        ((parseFloat req.issuanceQty).isNaNb = true ∨
          (parseFloat req.issuanceQty).leZero = true))) ∧
    (∀ (req : ReceiveRequest) (rows : List (List String))
      (receiptKS : Option (List (List String))) (clock : Clock)
      (cL cI cD cQ cR cIm i : Nat) (row : List String),
      req.itemCode ≠ "" → req.receiptQty ≠ "" → req.receivedBy ≠ "" → req.location ≠ "" →
      2 ≤ rows.length →
      jsIndexOf "Location" (rows.headD []) = some cL →
      jsIndexOf "Item Code" (rows.headD []) = some cI →
      jsIndexOf "Description" (rows.headD []) = some cD →
      jsIndexOf "Qty" (rows.headD []) = some cQ →
      jsIndexOf "Returnable Item" (rows.headD []) = some cR →
      jsIndexOf "Image Link" (rows.headD []) = some cIm →
      findTarget req.itemCode req.location cI cL (rows.drop 1) 0 = some (i, row) →
      (receiveInventory req (some rows) receiptKS clock =
          ⟨400, some "Invalid receipt quantity", []⟩ ↔
        ((parseFloat req.receiptQty).isNaNb = true ∨
          (parseFloat req.receiptQty).leZero = true))) := by
  constructor
  · intro req rows formAJ clock cL cI cD cQ cR cIm i row h1 h2 h3 h4 h5 hlen hcL hcI hcD hcQ
      hcR hcIm htgt
    constructor
    · intro h
      by_contra hv
      exact issueInventory_not_invalid req rows formAJ clock cL cI cD cQ cR cIm i row
        h1 h2 h3 h4 h5 hlen hcL hcI hcD hcQ hcR hcIm htgt hv h
    · intro hv
      exact issueInventory_invalid req rows formAJ clock cL cI cD cQ cR cIm i row
        h1 h2 h3 h4 h5 hlen hcL hcI hcD hcQ hcR hcIm htgt hv
  · intro req rows receiptKS clock cL cI cD cQ cR cIm i row h1 h2 h3 h5 hlen hcL hcI hcD hcQ
      hcR hcIm htgt
    constructor
    · intro h
      by_contra hv
      exact receiveInventory_not_invalid req rows receiptKS clock cL cI cD cQ cR cIm i row
        h1 h2 h3 h5 hlen hcL hcI hcD hcQ hcR hcIm htgt hv h
    · intro hv
      exact receiveInventory_invalid req rows receiptKS clock cL cI cD cQ cR cIm i row
        h1 h2 h3 h5 hlen hcL hcI hcD hcQ hcR hcIm htgt hv

/-- Scenario issue request with the nonpositive quantity string 0. -/
def issueReq0 : IssueRequest :=
  { itemCode := "X1", issuanceQty := "0", issuedBy := "alice", activity := "maint",
    notes := none, location := "W1" }

/-- Scenario receive request with a non-numeric quantity string. -/
def recvReqBad : ReceiveRequest :=
  { itemCode := "X1", receiptQty := "abc", receivedBy := "bob", notes := none,
    location := "W1" }

/-- Witness for C6: the invalid-quantity characterization instantiated at a
zero issuance quantity and a non-numeric receipt quantity. -/
theorem claim_C6_witness :
    (issueInventory issueReq0 (some invTable) (some [["x"]]) demoClock =
        ⟨400, some "Invalid issuance quantity", []⟩ ↔
      ((parseFloat issueReq0.issuanceQty).isNaNb = true ∨
        (parseFloat issueReq0.issuanceQty).leZero = true)) ∧
    (receiveInventory recvReqBad (some invTable) (some []) demoClock =
        ⟨400, some "Invalid receipt quantity", []⟩ ↔
      ((parseFloat recvReqBad.receiptQty).isNaNb = true ∨
        (parseFloat recvReqBad.receiptQty).leZero = true)) :=
  by
  refine ⟨claim_C6_amended.1 issueReq0 invTable (some [["x"]]) demoClock 0 1 2 4 6 9 0
      invRowX1 ?_ ?_ ?_ ?_ ?_ ?_ ?_ ?_ ?_ ?_ ?_ ?_ ?_,
    claim_C6_amended.2 recvReqBad invTable (some []) demoClock 0 1 2 4 6 9 0 invRowX1
      ?_ ?_ ?_ ?_ ?_ ?_ ?_ ?_ ?_ ?_ ?_ ?_⟩ <;> decide

/-- C10: when the located row's quantity cell is absent or fails to parse
(`parseFloat` yields NaN, which `|| 0` collapses to 0), issue rejects every
positive requested quantity as insufficient stock without writing, while
receive succeeds and stores the requested quantity alone as the new
quantity. -/
theorem claim_C10_unparseable_qty :
    (∀ (req : IssueRequest) (rows : List (List String))
      (formAJ : Option (List (List String))) (clock : Clock)
      (cL cI cD cQ cR cIm i : Nat) (row : List String) (q : ℚ),
      req.itemCode ≠ "" → req.issuanceQty ≠ "" → req.issuedBy ≠ "" → req.activity ≠ "" →
      req.location ≠ "" → 2 ≤ rows.length →
      jsIndexOf "Location" (rows.headD []) = some cL →
      jsIndexOf "Item Code" (rows.headD []) = some cI →
      jsIndexOf "Description" (rows.headD []) = some cD →
      jsIndexOf "Qty" (rows.headD []) = some cQ →
      jsIndexOf "Returnable Item" (rows.headD []) = some cR →
      jsIndexOf "Image Link" (rows.headD []) = some cIm →
      findTarget req.itemCode req.location cI cL (rows.drop 1) 0 = some (i, row) →
      parseCellFloat row[cQ]? = .nan →
      parseFloat req.issuanceQty = .fin q → 0 < q →
      issueInventory req (some rows) formAJ clock =
        ⟨400, some "Not enough quantity in inventory to fulfill issuance", []⟩) ∧
    (∀ (req : ReceiveRequest) (rows : List (List String))
      (receiptKS : Option (List (List String))) (clock : Clock)
      (cL cI cD cQ cR cIm i : Nat) (row : List String) (q : ℚ),
      req.itemCode ≠ "" → req.receiptQty ≠ "" → req.receivedBy ≠ "" → req.location ≠ "" →
      2 ≤ rows.length →
      jsIndexOf "Location" (rows.headD []) = some cL →
      jsIndexOf "Item Code" (rows.headD []) = some cI →
      jsIndexOf "Description" (rows.headD []) = some cD →
      jsIndexOf "Qty" (rows.headD []) = some cQ →
      jsIndexOf "Returnable Item" (rows.headD []) = some cR →
      jsIndexOf "Image Link" (rows.headD []) = some cIm →
      findTarget req.itemCode req.location cI cL (rows.drop 1) 0 = some (i, row) →
      parseCellFloat row[cQ]? = .nan →
      parseFloat req.receiptQty = .fin q → 0 < q →
      receiveInventory req (some rows) receiptKS clock =
        ⟨200, none,
          [⟨"Form Responses!K" ++ toString (receiveNextRow receiptKS) ++ ":S" ++
              toString (receiveNextRow receiptKS),
            [[Cell.str clock.timestamp, Cell.str req.itemCode, Cell.num (.fin q),
              Cell.str req.location, Cell.str ((row[cD]?).getD ""),
              Cell.str ((row[cR]?).getD ""), Cell.str req.receivedBy,
              Cell.str (req.notes.getD ""), Cell.str ((row[cIm]?).getD "")]]⟩,
           ⟨"Inventory!" ++ getColumnLetter (cQ : Int) ++ toString (i + 1 + 1),
            [[Cell.num (.fin q)]]⟩]⟩) := by
  constructor
  · intro req rows formAJ clock cL cI cD cQ cR cIm i row q h1 h2 h3 h4 h5 hlen hcL hcI hcD
      hcQ hcR hcIm htgt hnan hq hqpos
    refine issueInventory_insufficient req rows formAJ clock cL cI cD cQ cR cIm i row q
      h1 h2 h3 h4 h5 hlen hcL hcI hcD hcQ hcR hcIm htgt hq hqpos ?_
    rw [hnan]
    simp [JVal.orZero, JVal.lt, hqpos]
  · intro req rows receiptKS clock cL cI cD cQ cR cIm i row q h1 h2 h3 h5 hlen hcL hcI hcD
      hcQ hcR hcIm htgt hnan hq hqpos
    rw [receiveInventory_success req rows receiptKS clock cL cI cD cQ cR cIm i row q
      (.fin 0) h1 h2 h3 h5 hlen hcL hcI hcD hcQ hcR hcIm htgt hq hqpos
      (by rw [hnan]; rfl)]
    have hadd : (JVal.fin 0).add (.fin q) = .fin q := by simp [JVal.add]
    rw [hadd]

/-- Inventory row whose quantity cell does not parse as a number. -/
def invRowBad : List String :=
  ["W1", "X1", "widget", "EA", "n/a", "Good", "No", "Tools", "2024-01-01", "http://img"]

/-- Inventory tab with the unparseable quantity row. -/
def invTableBad : List (List String) := [invHeaders, invRowBad]

/-- Witness for C10: against the row whose quantity cell is `n/a`, issuing 4
is rejected as insufficient stock with no write, and receiving 5 succeeds
storing exactly 5. -/
theorem claim_C10_witness :
    parseCellFloat invRowBad[4]? = .nan ∧
    issueInventory issueReq4 (some invTableBad) (some [["x"]]) demoClock =
      ⟨400, some "Not enough quantity in inventory to fulfill issuance", []⟩ ∧
    receiveInventory recvReq5 (some invTableBad) (some []) demoClock =
      ⟨200, none,
        [⟨"Form Responses!K" ++ toString (receiveNextRow (some [])) ++ ":S" ++
            toString (receiveNextRow (some [])),
          [[Cell.str demoClock.timestamp, Cell.str recvReq5.itemCode, Cell.num (.fin 5),
            Cell.str recvReq5.location, Cell.str ((invRowBad[2]?).getD ""),
            Cell.str ((invRowBad[6]?).getD ""), Cell.str recvReq5.receivedBy,
            Cell.str (recvReq5.notes.getD ""), Cell.str ((invRowBad[9]?).getD "")]]⟩,
         ⟨"Inventory!" ++ getColumnLetter (4 : Int) ++ toString (0 + 1 + 1),
          [[Cell.num (.fin 5)]]⟩]⟩ :=
  by
  refine ⟨?_,
    claim_C10_unparseable_qty.1 issueReq4 invTableBad (some [["x"]]) demoClock 0 1 2 4 6 9 0
      invRowBad 4 ?_ ?_ ?_ ?_ ?_ ?_ ?_ ?_ ?_ ?_ ?_ ?_ ?_ ?_ ?_ ?_,
    claim_C10_unparseable_qty.2 recvReq5 invTableBad (some []) demoClock 0 1 2 4 6 9 0
      invRowBad 5 ?_ ?_ ?_ ?_ ?_ ?_ ?_ ?_ ?_ ?_ ?_ ?_ ?_ ?_ ?_⟩ <;> decide
